import Mathlib

/-!
Verification development for the braindrop Physics RAG service
(`physics_rag_weaviate`).  The Python sources are shallowly embedded:
pure computations become Lean functions over exact rationals (Python floats
are modelled as `ℚ`, strings as `String` or `List Char`), stateful code
becomes explicit state passing, external effects (the Weaviate store, the
embedding provider, the generation provider, the file system) are supplied
as per-request outcome environments, and Python exceptions become
`Except String` values.
-/

set_option linter.unusedVariables false
set_option maxRecDepth 4000

namespace PhysicsRag

/-- Python float scores, modelled exactly. -/
abbrev Score := ℚ

/-! ## Fixed localized texts (from the Python sources, verbatim)

`noInfoText` is rag_service.py line 210 (and generation_service.py line 168),
`apologyRetryText` is generation_service.py line 100 (and rag_service.py
line 242), `genFailText` is generation_service.py line 205. -/

def noInfoText : String :=
  "দুঃখিত, এই প্রশ্নের জন্য কোনো প্রাসঙ্গিক তথ্য পাওয়া যায়নি।"

def apologyRetryText : String :=
  "দুঃখিত, উত্তর তৈরি করতে সমস্যা হয়েছে। অনুগ্রহ করে আবার চেষ্টা করুন।"

def genFailText : String :=
  "উত্তর তৈরি করতে সমস্যা হয়েছে।"

/-! ## Data model -/

/-- Metadata attached by the Weaviate store to a returned object.  Either
metric may be absent (`none`), mirroring the `hasattr`/`getattr` probing in
search_service.py lines 156-158, 196-198, 236-238. -/
structure ObjMetadata where
  score : Option Score
  distance : Option Score
deriving Repr, DecidableEq

/-- An object returned by a Weaviate query.  `properties.get` defaults are
applied at formatting time, so the raw properties are `Option`-valued. -/
structure StoredObject where
  text : Option (List Char)
  doc_id : Option Nat
  metadata : ObjMetadata
deriving Repr, DecidableEq

/-- A formatted search result, as assembled by WeaviateSearchService
(search_service.py lines 155-161, 195-201, 235-241).  The wall-clock
`search_time` field is not modelled (real time). -/
structure SearchResult where
  content : List Char
  doc_id : Nat
  score : Score
  rank : Nat
  search_type : String
deriving Repr, DecidableEq

/-! ## WeaviateSearchService (search_service.py)

Each search method submits a query to the store and formats the store's
reply.  The store call is external (third-party Weaviate SDK); its outcome
for the one call a request makes is supplied as an
`Except String (List StoredObject)` value (`.error` = the SDK raised).
Each Python method wraps its body in try/except that logs and re-raises,
which is the identity on the error channel. -/

/-- Result formatting loop of `hybrid_search` (search_service.py 153-162):
rank is the 1-based position, missing text defaults to the empty string,
missing doc_id defaults to the 0-based rank, missing score metadata
defaults to 0.0, and the result is tagged "hybrid". -/
def hybridFormatted (objs : List StoredObject) : List SearchResult :=
  objs.enum.map fun p =>
    { content := p.2.text.getD []
      doc_id := p.2.doc_id.getD p.1
      score := p.2.metadata.score.getD 0
      rank := p.1 + 1
      search_type := "hybrid" }

/-- Result formatting loop of `vector_search` (search_service.py 193-202):
identical shape, except the metric read is `distance` with default 1.0 and
the tag is "vector". -/
def vectorFormatted (objs : List StoredObject) : List SearchResult :=
  objs.enum.map fun p =>
    { content := p.2.text.getD []
      doc_id := p.2.doc_id.getD p.1
      score := p.2.metadata.distance.getD 1
      rank := p.1 + 1
      search_type := "vector" }

/-- Result formatting loop of `keyword_search` (search_service.py 233-242):
metric read is `score` with default 0.0, tag "keyword". -/
def keywordFormatted (objs : List StoredObject) : List SearchResult :=
  objs.enum.map fun p =>
    { content := p.2.text.getD []
      doc_id := p.2.doc_id.getD p.1
      score := p.2.metadata.score.getD 0
      rank := p.1 + 1
      search_type := "keyword" }

/-- `WeaviateSearchService.hybrid_search` (search_service.py 124-169).
`storeResult` is the outcome of `collection.query.hybrid(query, vector,
alpha, limit)`; the remaining arguments record the call shape.  A raised
store error is re-raised unmodified by the except block. -/
def WeaviateSearchService.hybrid_search
    (storeResult : Except String (List StoredObject))
    (query_text : List Char) (query_vector : List Score)
    (alpha : Score) (limit : Nat) : Except String (List SearchResult) :=
  match storeResult with
  | .error e => .error e
  | .ok objs => .ok (hybridFormatted objs)

/-- `WeaviateSearchService.vector_search` (search_service.py 171-209);
`storeResult` is the outcome of `collection.query.near_vector(vector,
limit)`. -/
def WeaviateSearchService.vector_search
    (storeResult : Except String (List StoredObject))
    (query_vector : List Score) (limit : Nat) :
    Except String (List SearchResult) :=
  match storeResult with
  | .error e => .error e
  | .ok objs => .ok (vectorFormatted objs)

/-- `WeaviateSearchService.keyword_search` (search_service.py 211-249);
`storeResult` is the outcome of `collection.query.bm25(query, limit)`. -/
def WeaviateSearchService.keyword_search
    (storeResult : Except String (List StoredObject))
    (query_text : List Char) (limit : Nat) :
    Except String (List SearchResult) :=
  match storeResult with
  | .error e => .error e
  | .ok objs => .ok (keywordFormatted objs)

/-! ## GenerationService (generation_service.py)

The upstream Gemini call of one request is modelled by its outcome
`gen : Option String` (`none` = the provider call raised).  Prompt assembly
(`create_physics_prompt`) only builds the string sent upstream and affects
no claim, so the prompt text is not reconstructed. -/

/-- `GenerationService.generate_response` (generation_service.py 63-100):
on provider failure the except block returns the fixed apology string
(line 100) instead of propagating. -/
def GenerationService.generate_response (gen : Option String) : String :=
  match gen with
  | some text => text
  | none => apologyRetryText

/-- The 3-character ellipsis marker appended by source-preview truncation
(generation_service.py line 183). -/
def ellipsisMarker : List Char := ['.', '.', '.']

/-- Source preview of one result's content (generation_service.py 183):
`content[:200] + "..."` when `len(content) > 200`, else unchanged. -/
def contentPreview (content : List Char) : List Char :=
  if content.length > 200 then content.take 200 ++ ellipsisMarker
  else content

/-- Source entry assembled for one search result
(generation_service.py 182-188). -/
structure SourceInfo where
  content_preview : List Char
  score : Score
  doc_id : Option Nat
  rank : Nat
  search_type : String
deriving Repr, DecidableEq

/-- Confidence estimation from the top result's raw score
(generation_service.py 190-193):
`confidence = min(score, 1.0)`, then if negative reinterpret as
`max(0.0, 1.0 - abs(confidence))`. -/
def estimateConfidence (score : Score) : Score :=
  let confidence := min score 1
  if confidence < 0 then max 0 (1 - |confidence|) else confidence

/-- Return value of `generate_with_sources`; `total_sources` is absent
(`none`) in the empty-result dict (generation_service.py 166-171). -/
structure GenResult where
  response : String
  sources : List SourceInfo
  confidence : Score
  total_sources : Option Nat
deriving Repr, DecidableEq

/-- `GenerationService.generate_with_sources` (generation_service.py
155-208).  When results are nonempty: generate from the top result's
content, attach previews of the top-3 results, and estimate confidence
from the top score.  The outer except block (lines 202-208) is unreachable
here: the only upstream call, `generate_response`, already catches its own
provider failure, and the source loop cannot raise on well-typed results. -/
def GenerationService.generate_with_sources (gen : Option String)
    (search_results : List SearchResult) : GenResult :=
  match search_results with
  | [] =>
    { response := noInfoText, sources := [], confidence := 0
      total_sources := none }
  | top :: _ =>
    let response_text := GenerationService.generate_response gen
    let sources := (search_results.take 3).map fun r =>
      { content_preview := contentPreview r.content
        score := r.score
        doc_id := some r.doc_id
        rank := r.rank
        search_type := r.search_type : SourceInfo }
    let confidence := estimateConfidence top.score
    { response := response_text, sources := sources
      confidence := confidence, total_sources := some search_results.length }

/-! ## Settings (config/settings.py) -/

/-- settings.py line 39. -/
def Settings.DEFAULT_TOP_K : Nat := 5

/-- settings.py line 40. -/
def Settings.HYBRID_ALPHA : Score := 1/2

/-! ## Ingestion chunking (rag_service.py line 90)

`chunks = [t.strip() for t in content.split('*****') if t.strip()]` -/

/-- The 5-character split delimiter. -/
def starDelim : List Char := ['*', '*', '*', '*', '*']

/-- Python `content.split('*****')`: splits on every occurrence of the
delimiter, keeping empty segments. -/
def starSplitGo : List Char → List Char → List (List Char)
  | [], acc => [acc.reverse]
  | c :: rest, acc =>
    if (c :: rest).take 5 = starDelim then
      acc.reverse :: starSplitGo ((c :: rest).drop 5) []
    else
      starSplitGo rest (c :: acc)
termination_by s _ => s.length
decreasing_by
  · simp only [List.length_drop, List.length_cons]
    omega
  · simp only [List.length_cons]
    omega

def starSplit (content : List Char) : List (List Char) :=
  starSplitGo content []

/-- Python `str.strip()`: remove leading and trailing whitespace. -/
def pyStrip (s : List Char) : List Char :=
  ((s.dropWhile Char.isWhitespace).reverse.dropWhile Char.isWhitespace).reverse

/-- The chunk list of rag_service.py line 90: split, strip each segment,
and keep only segments that are nonempty after stripping. -/
def pyChunks (content : List Char) : List (List Char) :=
  ((starSplit content).map pyStrip).filter (fun t => ¬t.isEmpty)

/-! ## WeaviateRAGService (rag_service.py)

The service instance state is the `_initialized` flag (rag_service.py
line 53) together with the store's document count (the only persisted
collection state a claim touches).  Each request's external-call outcomes
are supplied in an environment record. -/

/-- Mutable state: the service's `_initialized` flag (named `inited` here)
and the Weaviate collection's document count. -/
structure ServiceState where
  inited : Bool
  docCount : Nat
deriving Repr, DecidableEq

/-- Store-mutating operations performed during one
`initialize_collection` call (for stating the C9 no-op property). -/
inductive StoreOp where
  | reset : StoreOp
  | insert : Nat → StoreOp
deriving Repr, DecidableEq

/-- Outcomes of the external calls one `initialize_collection` call can
make: `resetOk` = whether `reset_collection` succeeds internally (its
errors are caught there, rag_service line 71 ignores its return value);
`statsOk` = whether `get_collection_stats` reaches the store (on failure
it reports `total_documents = 0`, search_service.py 296-302);
`fileContent` = the physics text (`none` = reading/validation raised);
`embedOk` = whether the batch embedding call succeeds;
`insertRaises` = whether the bulk insert raises (`insert_documents`
returns True or raises, search_service.py 95-122). -/
structure InitEnv where
  resetOk : Bool
  statsOk : Bool
  fileContent : Option (List Char)
  embedOk : Bool
  insertRaises : Bool
deriving Repr, DecidableEq

/-- Result of one `initialize_collection` call: the returned bool, the
state afterwards and the store operations performed. -/
structure InitOutcome where
  ok : Bool
  state : ServiceState
  ops : List StoreOp
deriving Repr, DecidableEq

/-- `WeaviateRAGService.initialize_collection` (rag_service.py 56-110),
named `init_collection` here.  Branches: optional reset; read stats; if
the collection already has documents and no reset was forced, set the
flag and report success without touching the store; otherwise read the
physics text, chunk it, embed and bulk-insert; any raised error is caught
by the outer except and reported as False.  Partial effects of a failed
batch insert are not modelled (no claim touches them). -/
def init_collection (env : InitEnv) (st : ServiceState)
    (force_reset : Bool) : InitOutcome :=
  let stOps : ServiceState × List StoreOp :=
    if force_reset then
      ({ st with docCount := if env.resetOk then 0 else st.docCount },
       [StoreOp.reset])
    else (st, [])
  let st1 := stOps.1
  let ops := stOps.2
  let totalDocs : Nat := if env.statsOk then st1.docCount else 0
  if totalDocs > 0 ∧ force_reset = false then
    { ok := true, state := { st1 with inited := true }, ops := ops }
  else
    match env.fileContent with
    | none => { ok := false, state := st1, ops := ops }
    | some content =>
      let chunks := pyChunks content
      if env.embedOk = false then
        { ok := false, state := st1, ops := ops }
      else if env.insertRaises then
        { ok := false, state := st1, ops := ops }
      else
        { ok := true
          state := { inited := true
                     docCount := st1.docCount + chunks.length }
          ops := ops ++ [StoreOp.insert chunks.length] }

/-- Outcomes of the external calls one `search`/`chat` request can make:
`initEnv` for a lazily triggered `initialize_collection`; `embedQuery`
for `get_query_embedding`; one store reply per query kind; `gen` for the
upstream generation call (`none` = the provider raised). -/
structure Env where
  initEnv : InitEnv
  embedQuery : Except String (List Score)
  hybridObjs : Except String (List StoredObject)
  vectorObjs : Except String (List StoredObject)
  keywordObjs : Except String (List StoredObject)
  gen : Option String

/-- `WeaviateRAGService.search` (rag_service.py 112-179).  Lazy
initialization when the flag is unset (line 128-129); defaulting of
`top_k`/`alpha` from settings; dispatch on the search-type string with a
ValueError for anything else; the per-result loop stamps
`search_type` onto every result (line 172; `search_time` is wall clock
and not modelled); the except block re-raises unmodified.  Returns the
result together with the (possibly initialized) state. -/
def WeaviateRAGService.search (env : Env) (st : ServiceState)
    (query : List Char) (search_type : String) (top_k : Option Nat)
    (alpha : Option Score) :
    Except String (List SearchResult) × ServiceState :=
  let st1 := if st.inited then st
             else (init_collection env.initEnv st false).state
  let top_k := top_k.getD Settings.DEFAULT_TOP_K
  let alpha := alpha.getD Settings.HYBRID_ALPHA
  let raw : Except String (List SearchResult) :=
    if search_type = "hybrid" then
      match env.embedQuery with
      | .error e => .error e
      | .ok query_embedding =>
        WeaviateSearchService.hybrid_search env.hybridObjs query
          query_embedding alpha top_k
    else if search_type = "vector" then
      match env.embedQuery with
      | .error e => .error e
      | .ok query_embedding =>
        WeaviateSearchService.vector_search env.vectorObjs
          query_embedding top_k
    else if search_type = "keyword" then
      WeaviateSearchService.keyword_search env.keywordObjs query top_k
    else
      .error ("Invalid search_type: " ++ search_type)
  (raw.map (List.map fun r => { r with search_type := search_type }), st1)

/-- The dict returned by `chat` (rag_service.py 181-248).
`search_results_count` and `message` are absent (`none`) in the
empty-result and error dicts (lines 209-215, 241-248); `error` is present
only in the error dict; wall-clock `total_time` is not modelled. -/
structure ChatResult where
  response : String
  sources : List SourceInfo
  confidence : Score
  search_results_count : Option Nat
  search_type : String
  message : Option (List Char)
  error : Option String
deriving Repr, DecidableEq

/-- `WeaviateRAGService.chat` (rag_service.py 181-248).  Default `top_k`;
search; empty results short-circuit to the fixed no-information answer
with confidence 0.0 and no sources; otherwise either
`generate_with_sources` (include_sources) or a plain `generate_response`
whose dict carries the top result's raw score as confidence (line 227);
metadata is stamped on; any exception escaping the try block is converted
to the apology dict with confidence 0.0 (lines 239-248). -/
def WeaviateRAGService.chat (env : Env) (st : ServiceState)
    (message : List Char) (include_sources : Bool) (search_type : String)
    (top_k : Option Nat) : ChatResult :=
  let top_k := top_k.getD Settings.DEFAULT_TOP_K
  match (WeaviateRAGService.search env st message search_type
          (some top_k) none).1 with
  | .error e =>
    { response := apologyRetryText, sources := [], confidence := 0
      search_results_count := none, search_type := search_type
      message := none, error := some e }
  | .ok [] =>
    { response := noInfoText, sources := [], confidence := 0
      search_results_count := none, search_type := search_type
      message := none, error := none }
  | .ok (top :: rest) =>
    let result : GenResult :=
      if include_sources then
        GenerationService.generate_with_sources env.gen (top :: rest)
      else
        { response := GenerationService.generate_response env.gen
          sources := [], confidence := top.score, total_sources := none }
    { response := result.response, sources := result.sources
      confidence := result.confidence
      search_results_count := some (top :: rest).length
      search_type := search_type, message := some message, error := none }

/-- One similar-content entry (rag_service.py 312-316). -/
structure SimilarContent where
  content : List Char
  similarity_score : Score
  doc_id : Nat
deriving Repr, DecidableEq

/-- `WeaviateRAGService.get_similar_content` (rag_service.py 294-322):
a vector-mode search whose results are reshaped; any exception is caught
and an empty list is returned (lines 320-322). -/
def WeaviateRAGService.get_similar_content (env : Env)
    (st : ServiceState) (text : List Char) (top_k : Nat) :
    List SimilarContent × ServiceState :=
  let out := WeaviateRAGService.search env st text "vector" (some top_k)
    none
  match out.1 with
  | .error _ => ([], out.2)
  | .ok results =>
    (results.map fun r =>
      { content := r.content, similarity_score := r.score
        doc_id := r.doc_id }, out.2)

/-! ## Call sequences (for the lazy-initialization claim) -/

/-- The arguments of one `search` call together with that call's
external-outcome environment. -/
structure SearchCall where
  env : Env
  query : List Char
  search_type : String
  top_k : Option Nat
  alpha : Option Score

/-- Run a sequence of `search` calls on one service instance, counting
how often the flag-gated lazy-initialization path (rag_service.py
128-129) is entered, and how many of those entered initializations
return success.  Returns (final state, entries, successful entries). -/
def runSearchSeq : ServiceState → List SearchCall → ServiceState × Nat × Nat
  | st, [] => (st, 0, 0)
  | st, c :: rest =>
    let entered : Nat := if st.inited then 0 else 1
    let succ : Nat :=
      if st.inited then 0
      else if (init_collection c.env.initEnv st false).ok then 1 else 0
    let st1 := (WeaviateRAGService.search c.env st c.query c.search_type
      c.top_k c.alpha).2
    let restOut := runSearchSeq st1 rest
    (restOut.1, entered + restOut.2.1, succ + restOut.2.2)

/-! ## Boundary layer (main.py) -/

/-- The `/initialize` endpoint's reply (models InitializeResponse of
responses.py 99-104; only claim-relevant fields). -/
structure InitializeReply where
  success : Bool
  documents_count : Option Nat
deriving Repr, DecidableEq

/-- The `/initialize` endpoint (main.py 148-179): call
`initialize_collection`; on True re-read stats and report the document
count; on False (or a raised error) reply with success = False.  The
post-success stats call reuses `env.statsOk` (both stats calls of the
request share the store's reachability). -/
def initEndpoint (env : InitEnv) (st : ServiceState)
    (force_reset : Bool) : InitializeReply × ServiceState :=
  let out := init_collection env st force_reset
  if out.ok then
    ({ success := true
       documents_count :=
         some (if env.statsOk then out.state.docCount else 0) }, out.state)
  else
    ({ success := false, documents_count := none }, out.state)

/-! ## Reference definitions taken from the spec and from declared
response-model constraints -/

/-- The confidence policy as the spec states it (§4.4): if the score is
negative, `max(0.0, 1.0 - abs(score))`; otherwise `min(score, 1.0)`.
This is the spec-side definition for the refinement claim C5; the
code-side definition is `estimateConfidence`. -/
def specConfidence (score : Score) : Score :=
  if score < 0 then max 0 (1 - |score|) else min score 1

/-- responses.py line 42: the ChatResponse model declares
`confidence: float = Field(..., ge=0.0, le=1.0)`; this is the validation
check that declaration imposes on a confidence value. -/
def ChatResponse.validConfidence (c : Score) : Bool :=
  decide (0 ≤ c) && decide (c ≤ 1)

/-! ## Shared concrete sample data for witnesses and counterexamples -/

/-- A stored object with given metric metadata. -/
def demoObj (s d : Option Score) : StoredObject :=
  { text := some ['x'], doc_id := some 0, metadata := { score := s, distance := d } }

/-- A service state whose collection is populated and whose lazy-init
flag is already set. -/
def readyState : ServiceState := { inited := true, docCount := 3 }

/-- An init environment in which reading the physics text raises. -/
def baseInitEnv : InitEnv :=
  { resetOk := true, statsOk := true, fileContent := none
    embedOk := true, insertRaises := false }

/-- A request environment with healthy embedding, empty store replies and
a failing generation provider; counterexamples override fields. -/
def baseEnv : Env :=
  { initEnv := baseInitEnv, embedQuery := .ok [1]
    hybridObjs := .ok [], vectorObjs := .ok [], keywordObjs := .ok []
    gen := none }

/-! ## Claim theorems -/

/-- C5: for the sources-included chat flow, the confidence computed by the
code from the top result's raw score `s` (generation_service.py 190-193)
equals the spec's policy: `max(0.0, 1.0 - abs(s))` when `s` is negative,
`min(s, 1.0)` otherwise. -/
theorem estimateConfidence_matches_spec (s : Score) :
    estimateConfidence s = specConfidence s := by
  unfold estimateConfidence specConfidence
  rcases lt_or_le s 0 with h | h
  · have hmin : min s 1 = s := min_eq_left (le_trans h.le zero_le_one)
    simp [hmin, h]
  · have h1 : ¬ min s 1 < 0 := not_lt.mpr (le_min h zero_le_one)
    simp [h1, not_lt.mpr h]

/-- C8: a source's content preview is the content unchanged when its
length is at most 200 characters, and exactly the first 200 characters
followed by the 3-character ellipsis marker (total length 203) when the
length exceeds 200. -/
theorem content_preview_truncation (content : List Char) :
    (content.length ≤ 200 → contentPreview content = content) ∧
    (200 < content.length →
      contentPreview content = content.take 200 ++ ellipsisMarker ∧
      (contentPreview content).length = 203 ∧
      ellipsisMarker.length = 3) := by
  constructor
  · intro h
    simp [contentPreview, Nat.not_lt.mpr h]
  · intro h
    refine ⟨by simp [contentPreview, h], ?_, rfl⟩
    simp [contentPreview, h, ellipsisMarker, List.length_append,
      List.length_take]
    omega

/-- C8 witness: a 250-character chunk is truncated to its first 200
characters plus the marker; a 150-character chunk is unmodified. -/
theorem content_preview_truncation_witness :
    contentPreview (List.replicate 150 'a') = List.replicate 150 'a' ∧
    contentPreview (List.replicate 250 'a') =
      (List.replicate 250 'a').take 200 ++ ellipsisMarker :=
  ⟨(content_preview_truncation (List.replicate 150 'a')).1 (by decide),
   ((content_preview_truncation (List.replicate 250 'a')).2 (by decide)).1⟩

/-- C10: a result object lacking its score metric gets a mode-dependent
default: 1.0 in vector mode (worst-case distance), 0.0 in hybrid and
keyword mode, and these defaults differ for the same stored object. -/
theorem missing_metric_default_scores (obj : StoredObject)
    (hs : obj.metadata.score = none) (hd : obj.metadata.distance = none) :
    (vectorFormatted [obj]).map SearchResult.score = [1] ∧
    (hybridFormatted [obj]).map SearchResult.score = [0] ∧
    (keywordFormatted [obj]).map SearchResult.score = [0] ∧
    (1 : Score) ≠ 0 := by
  refine ⟨?_, ?_, ?_, one_ne_zero⟩
  · show [obj.metadata.distance.getD 1] = [1]
    rw [hd]; rfl
  · show [obj.metadata.score.getD 0] = [0]
    rw [hs]; rfl
  · show [obj.metadata.score.getD 0] = [0]
    rw [hs]; rfl

/-- C10 witness at a concrete metric-less object. -/
theorem missing_metric_default_scores_witness :
    (vectorFormatted [demoObj none none]).map SearchResult.score = [1] ∧
    (hybridFormatted [demoObj none none]).map SearchResult.score = [0] ∧
    (keywordFormatted [demoObj none none]).map SearchResult.score = [0] ∧
    (1 : Score) ≠ 0 :=
  missing_metric_default_scores (demoObj none none) rfl rfl

/-- C9: when the stats call reaches the store and the collection already
holds at least one document, `initialize_collection` without force_reset
performs no store operation, leaves the document count unchanged, sets
the flag, reports success, and the `/initialize` endpoint reports the
existing document count. -/
theorem ingestion_idempotent (env : InitEnv) (st : ServiceState)
    (hstats : env.statsOk = true) (hdocs : 0 < st.docCount) :
    init_collection env st false =
      { ok := true, state := { st with inited := true }, ops := [] } ∧
    (initEndpoint env st false).1 =
      { success := true, documents_count := some st.docCount } := by
  have h1 : init_collection env st false =
      { ok := true, state := { st with inited := true }, ops := [] } := by
    unfold init_collection
    simp [hstats, hdocs]
  refine ⟨h1, ?_⟩
  unfold initEndpoint
  rw [h1]
  simp [hstats]

/-- C9 witness: a populated collection (7 documents), healthy stats call,
no force reset. -/
theorem ingestion_idempotent_witness :
    init_collection baseInitEnv { inited := false, docCount := 7 } false =
      { ok := true, state := { inited := true, docCount := 7 }, ops := [] } ∧
    (initEndpoint baseInitEnv { inited := false, docCount := 7 }
      false).1 = { success := true, documents_count := some 7 } :=
  ingestion_idempotent baseInitEnv { inited := false, docCount := 7 }
    rfl (by decide)

/-- Well-formedness of one mode's engine reply: it is a success whose
result list has length at most `limit`, whose ranks are exactly the
contiguous sequence `1..n`, and whose results all carry the mode tag. -/
def resultsWellFormed (limit : Nat) (mode : String)
    (res : Except String (List SearchResult)) : Prop :=
  ∃ rs, res = .ok rs ∧ rs.length ≤ limit ∧
    rs.map SearchResult.rank = List.range' 1 rs.length ∧
    ∀ r ∈ rs, r.search_type = mode

/-- The shared formatting loop shape: enumerate, assign rank = index + 1
and a fixed mode tag.  Any such formatted list is well formed once the
store honoured the requested limit. -/
theorem formatted_wellFormed (objs : List StoredObject) (limit : Nat)
    (mode : String) (f : Nat × StoredObject → SearchResult)
    (hrank : ∀ p, (f p).rank = p.1 + 1)
    (hmode : ∀ p, (f p).search_type = mode)
    (h : objs.length ≤ limit) :
    resultsWellFormed limit mode (.ok (objs.enum.map f)) := by
  refine ⟨objs.enum.map f, rfl, ?_, ?_, ?_⟩
  · simp [List.length_map, List.enum_length, h]
  · have hlen : (objs.enum.map f).length = objs.length := by
      simp [List.length_map, List.enum_length]
    rw [hlen, List.map_map]
    have hcomp : SearchResult.rank ∘ f = fun p => p.1 + 1 := funext hrank
    rw [hcomp]
    have h1 : (objs.enum.map fun p => p.1 + 1)
        = (objs.enum.map Prod.fst).map (fun x => x + 1) := by
      rw [List.map_map]; rfl
    rw [h1, List.enum_map_fst, List.range'_eq_map_range]
    exact List.map_congr_left fun x _ => Nat.add_comm x 1
  · intro r hr
    rcases List.mem_map.mp hr with ⟨p, _, rfl⟩
    exact hmode p

/-- C7: for every query, every mode in {vector, keyword, hybrid} and
every store reply that honours the requested limit (the limit is enforced
by the Weaviate store, to which each method passes `limit = top_k`), the
formatted result sequence has length at most top_k, ranks forming the
contiguous sequence `1..n`, and every result tagged with the requested
mode. -/
theorem search_results_wellformed (objs : List StoredObject)
    (query_text : List Char) (query_vector : List Score) (alpha : Score)
    (top_k : Nat) (h : objs.length ≤ top_k) :
    resultsWellFormed top_k "hybrid"
      (WeaviateSearchService.hybrid_search (.ok objs) query_text
        query_vector alpha top_k) ∧
    resultsWellFormed top_k "vector"
      (WeaviateSearchService.vector_search (.ok objs) query_vector
        top_k) ∧
    resultsWellFormed top_k "keyword"
      (WeaviateSearchService.keyword_search (.ok objs) query_text
        top_k) :=
  ⟨formatted_wellFormed objs top_k "hybrid" _ (fun _ => rfl)
      (fun _ => rfl) h,
   formatted_wellFormed objs top_k "vector" _ (fun _ => rfl)
      (fun _ => rfl) h,
   formatted_wellFormed objs top_k "keyword" _ (fun _ => rfl)
      (fun _ => rfl) h⟩

/-- C7 witness: a concrete two-object store reply under top_k = 5. -/
theorem search_results_wellformed_witness :
    resultsWellFormed 5 "hybrid"
      (WeaviateSearchService.hybrid_search
        (.ok [demoObj (some (3/4)) none, demoObj (some (1/4)) none])
        ['q'] [1] (1/2) 5) ∧
    resultsWellFormed 5 "vector"
      (WeaviateSearchService.vector_search
        (.ok [demoObj (some (3/4)) none, demoObj (some (1/4)) none])
        [1] 5) ∧
    resultsWellFormed 5 "keyword"
      (WeaviateSearchService.keyword_search
        (.ok [demoObj (some (3/4)) none, demoObj (some (1/4)) none])
        ['q'] 5) :=
  search_results_wellformed
    [demoObj (some (3/4)) none, demoObj (some (1/4)) none]
    ['q'] [1] (1/2) 5 (by decide)

/-- C6: whenever retrieval returns an empty result sequence, chat returns
the fixed localized no-information text with confidence exactly 0.0 and
an empty sources list, and the generation gateway is never invoked: the
answer is one constant, independent of the generation outcome `g`. -/
theorem chat_empty_results (env : Env) (st : ServiceState)
    (message : List Char) (include_sources : Bool) (search_type : String)
    (top_k : Option Nat)
    (h : (WeaviateRAGService.search env st message search_type
          (some (top_k.getD Settings.DEFAULT_TOP_K)) none).1 = .ok []) :
    ∀ g : Option String,
      WeaviateRAGService.chat { env with gen := g } st message
        include_sources search_type top_k =
      { response := noInfoText, sources := [], confidence := 0
        search_results_count := none, search_type := search_type
        message := none, error := none } := by
  intro g
  have hsearch : (WeaviateRAGService.search { env with gen := g } st
      message search_type (some (top_k.getD Settings.DEFAULT_TOP_K))
      none).1 = .ok [] := by
    cases env
    exact h
  simp only [WeaviateRAGService.chat]
  rw [hsearch]

/-- C6 witness: empty keyword reply from a populated, ready service;
the generation outcome is an arbitrary successful reply. -/
theorem chat_empty_results_witness :
    WeaviateRAGService.chat { baseEnv with gen := some "উত্তর" }
      readyState ['m'] true "keyword" none =
    { response := noInfoText, sources := [], confidence := 0
      search_results_count := none, search_type := "keyword"
      message := none, error := none } :=
  chat_empty_results baseEnv readyState ['m'] true "keyword" none
    (by rfl) (some "উত্তর")

/-- C2 counterexample: generation provider forced to fail (`gen = none`)
with a nonempty retrieval whose top raw score is 1.0.  Chat returns the
fixed apology text without raising, but its confidence is 1.0, not 0.0 —
refuting the claimed "confidence of exactly 0.0". -/
theorem chat_provider_failure_confidence_not_zero :
    (WeaviateRAGService.chat
      { baseEnv with hybridObjs := .ok [demoObj (some 1) none] }
      readyState ['q'] true "hybrid" none).response = apologyRetryText ∧
    (WeaviateRAGService.chat
      { baseEnv with hybridObjs := .ok [demoObj (some 1) none] }
      readyState ['q'] true "hybrid" none).confidence = 1 ∧
    ¬ ((1 : Score) = 0) := by
  refine ⟨?_, ?_, by norm_num⟩
  · rfl
  · show estimateConfidence 1 = 1
    simp [estimateConfidence]

/-- C2 amended: with a nonempty retrieval and a failing generation
provider, chat returns the fixed apology text and raises nothing, but
its confidence is the score-derived estimate of the top result (0.0 only
when that estimate is 0.0), and the requested sources are still
attached. -/
theorem chat_provider_failure_apology (env : Env) (st : ServiceState)
    (message : List Char) (search_type : String) (top_k : Option Nat)
    (top : SearchResult) (rest : List SearchResult)
    (hgen : env.gen = none)
    (h : (WeaviateRAGService.search env st message search_type
          (some (top_k.getD Settings.DEFAULT_TOP_K)) none).1 =
         .ok (top :: rest)) :
    WeaviateRAGService.chat env st message true search_type top_k =
      { response := apologyRetryText
        sources := ((top :: rest).take 3).map fun r =>
          { content_preview := contentPreview r.content, score := r.score
            doc_id := some r.doc_id, rank := r.rank
            search_type := r.search_type }
        confidence := estimateConfidence top.score
        search_results_count := some (top :: rest).length
        search_type := search_type, message := some message
        error := none } := by
  simp only [WeaviateRAGService.chat]
  rw [h]
  simp [GenerationService.generate_with_sources, hgen,
    GenerationService.generate_response]

/-- C2 amended witness: concrete one-result retrieval with raw score 1.0
and failing provider. -/
theorem chat_provider_failure_apology_witness :
    WeaviateRAGService.chat
      { baseEnv with hybridObjs := .ok [demoObj (some 1) none] }
      readyState ['q'] true "hybrid" none =
      { response := apologyRetryText
        sources := [{ content_preview := ['x'], score := 1
                      doc_id := some 0, rank := 1
                      search_type := "hybrid" }]
        confidence := 1
        search_results_count := some 1
        search_type := "hybrid", message := some ['q']
        error := none } := by
  have := chat_provider_failure_apology
    { baseEnv with hybridObjs := .ok [demoObj (some 1) none] }
    readyState ['q'] "hybrid" none
    { content := ['x'], doc_id := 0, score := 1, rank := 1
      search_type := "hybrid" } [] rfl (by rfl)
  rw [this]
  simp [estimateConfidence, contentPreview]

/-- C1 (code bug): with include_sources = false, chat copies the raw top
score into the confidence field (rag_service.py line 227).  For a
vector-mode distance of 2.0 (cosine distance ranges over [0, 2]) the
returned confidence is 2.0, which violates the bound the ChatResponse
model itself declares (responses.py line 42, ge=0.0/le=1.0) — so the
confidence is not always in [0, 1]. -/
theorem chat_confidence_out_of_range :
    (WeaviateRAGService.chat
      { baseEnv with vectorObjs := .ok [demoObj none (some 2)]
                     gen := some "উত্তর" }
      readyState ['q'] false "vector" none).confidence = 2 ∧
    ChatResponse.validConfidence
      (WeaviateRAGService.chat
        { baseEnv with vectorObjs := .ok [demoObj none (some 2)]
                       gen := some "উত্তর" }
        readyState ['q'] false "vector" none).confidence = false := by
  refine ⟨by rfl, ?_⟩
  show ChatResponse.validConfidence 2 = false
  simp [ChatResponse.validConfidence]

/-- C3 counterexample: with the store's vector (and keyword) query
raising, `search` propagates the error, but `get_similar_content` — the
similarity operation — returns a plain empty result list rather than a
hard error (rag_service.py 320-322), refuting the claim that it surfaces
the failure to its caller. -/
theorem similarity_swallows_error :
    (WeaviateRAGService.search
      { baseEnv with vectorObjs := .error "connection refused" }
      readyState ['t'] "vector" (some 5) none).1 =
      .error "connection refused" ∧
    (WeaviateRAGService.get_similar_content
      { baseEnv with vectorObjs := .error "connection refused" }
      readyState ['t'] 5).1 = [] := by
  exact ⟨rfl, rfl⟩

/-- C3 amended: search operations propagate retrieval and provider
failures upward unmodified (keyword store failure, embedding failure,
vector store failure, hybrid store failure), but the similarity
operation catches any search failure and returns an empty list instead
of surfacing a hard error. -/
theorem search_propagates_similarity_swallows (env : Env)
    (st : ServiceState) (q : List Char) (tk : Option Nat)
    (a : Option Score) (e : String) :
    (env.keywordObjs = .error e →
      (WeaviateRAGService.search env st q "keyword" tk a).1 =
        .error e) ∧
    (env.embedQuery = .error e →
      (WeaviateRAGService.search env st q "vector" tk a).1 =
        .error e) ∧
    (∀ v, env.embedQuery = .ok v → env.vectorObjs = .error e →
      (WeaviateRAGService.search env st q "vector" tk a).1 =
        .error e) ∧
    (∀ v, env.embedQuery = .ok v → env.hybridObjs = .error e →
      (WeaviateRAGService.search env st q "hybrid" tk a).1 =
        .error e) ∧
    (∀ (tk2 : Nat) (e2 : String),
      (WeaviateRAGService.search env st q "vector" (some tk2) none).1 =
        .error e2 →
      (WeaviateRAGService.get_similar_content env st q tk2).1 = []) := by
  refine ⟨?_, ?_, ?_, ?_, ?_⟩
  · intro hk
    simp [WeaviateRAGService.search, hk, Except.map,
      WeaviateSearchService.keyword_search]
  · intro he
    simp [WeaviateRAGService.search, he, Except.map]
  · intro v hv hvec
    simp [WeaviateRAGService.search, hv, hvec, Except.map,
      WeaviateSearchService.vector_search]
  · intro v hv hhyb
    simp [WeaviateRAGService.search, hv, hhyb, Except.map,
      WeaviateSearchService.hybrid_search]
  · intro tk2 e2 hsearch
    simp [WeaviateRAGService.get_similar_content, hsearch]

/-- C3 amended witness: concrete failing store replies. -/
theorem search_propagates_similarity_swallows_witness :
    (WeaviateRAGService.search
      { baseEnv with vectorObjs := .error "connection refused"
                     keywordObjs := .error "connection refused" }
      readyState ['t'] "keyword" none none).1 =
      .error "connection refused" ∧
    (WeaviateRAGService.get_similar_content
      { baseEnv with vectorObjs := .error "connection refused"
                     keywordObjs := .error "connection refused" }
      readyState ['t'] 5).1 = [] := by
  constructor
  · exact (search_propagates_similarity_swallows
      { baseEnv with vectorObjs := .error "connection refused"
                     keywordObjs := .error "connection refused" }
      readyState ['t'] none none "connection refused").1 rfl
  · exact (search_propagates_similarity_swallows
      { baseEnv with vectorObjs := .error "connection refused"
                     keywordObjs := .error "connection refused" }
      readyState ['t'] none none "connection refused").2.2.2.2
      5 "connection refused" rfl

/-- A search call whose lazily triggered initialization fails: the
physics text cannot be read (`baseInitEnv.fileContent = none`). -/
def failingCall : SearchCall :=
  { env := baseEnv, query := ['q'], search_type := "keyword"
    top_k := none, alpha := none }

/-- C4 counterexample: two searches on a fresh service whose
initialization attempt fails both times — the flag-gated ingestion path
is entered twice in one process lifetime, refuting "at most once". -/
theorem lazy_init_entered_twice :
    (runSearchSeq { inited := false, docCount := 0 }
      [failingCall, failingCall]).2.1 = 2 ∧ ¬ (2 ≤ 1) :=
  ⟨rfl, by decide⟩

/-- Every success branch of `initialize_collection` sets the flag. -/
theorem init_ok_or_flag (env : InitEnv) (st : ServiceState) (fr : Bool) :
    (init_collection env st fr).ok = false ∨
    (init_collection env st fr).state.inited = true := by
  unfold init_collection
  repeat' split
  all_goals by_cases hc : 0 < st.docCount ∧ fr = false <;> simp [hc]

/-- A search on an already-initialized service leaves the state
untouched. -/
theorem search_state_of_inited (c : SearchCall) (st : ServiceState)
    (h : st.inited = true) :
    (WeaviateRAGService.search c.env st c.query c.search_type c.top_k
      c.alpha).2 = st := by
  simp [WeaviateRAGService.search, h]

/-- A search on an uninitialized service ends in the state produced by
the triggered initialization. -/
theorem search_state_of_not_inited (c : SearchCall) (st : ServiceState)
    (h : st.inited = false) :
    (WeaviateRAGService.search c.env st c.query c.search_type c.top_k
      c.alpha).2 = (init_collection c.env.initEnv st false).state := by
  simp [WeaviateRAGService.search, h]

/-- Once the flag is set, no later search of the sequence enters the
ingestion path at all. -/
theorem runSearchSeq_inited_zero (calls : List SearchCall) :
    ∀ st : ServiceState, st.inited = true →
      (runSearchSeq st calls).2.1 = 0 ∧
      (runSearchSeq st calls).2.2 = 0 := by
  induction calls with
  | nil => intro st h; simp [runSearchSeq]
  | cons c rest ih =>
    intro st h
    have hp := search_state_of_inited c st h
    rcases ih st h with ⟨h1, h2⟩
    simp [runSearchSeq, hp, h, h1, h2]

/-- C4 amended: for every sequence of search calls on one service
instance, at most one of the lazily triggered initializations succeeds;
the path is re-entered only while initialization keeps failing, and
after a successful initialization (which sets the flag) it is never
entered again. -/
theorem lazy_init_at_most_one_success (st : ServiceState)
    (calls : List SearchCall) :
    (runSearchSeq st calls).2.2 ≤ 1 := by
  induction calls generalizing st with
  | nil => simp [runSearchSeq]
  | cons c rest ih =>
    by_cases h : st.inited = true
    · have h0 := (runSearchSeq_inited_zero (c :: rest) st h).2
      omega
    · have hfalse : st.inited = false := by
        revert h; cases st.inited <;> simp
      have hst1 := search_state_of_not_inited c st hfalse
      by_cases hok : (init_collection c.env.initEnv st false).ok = true
      · have hflag : (init_collection c.env.initEnv st
            false).state.inited = true := by
          rcases init_ok_or_flag c.env.initEnv st false with hbad | hgood
          · rw [hok] at hbad; cases hbad
          · exact hgood
        have hrest := (runSearchSeq_inited_zero rest
          (init_collection c.env.initEnv st false).state hflag).2
        simp [runSearchSeq, hfalse, hok, hst1, hrest]
      · have hokf : (init_collection c.env.initEnv st false).ok
            = false := by
          revert hok; cases (init_collection c.env.initEnv st false).ok
            <;> simp
        have hrest := ih (WeaviateRAGService.search c.env st c.query
          c.search_type c.top_k c.alpha).2
        simp only [runSearchSeq, hfalse, hokf]
        simpa using hrest

end PhysicsRag
